import Mathlib

/-!
# Verification of the Prismatic colourspace transforms

Shallow embedding of `colour/models/rgb/prismatic.py` (functions
`RGB_to_Prismatic` and `Prismatic_to_RGB`) over exact rational arithmetic.

The Python source, per vector `(R, G, B)`:

* `RGB_to_Prismatic`:
  `L = max(R,G,B)`; `s = R+G+B`; `one_s = 1/s` then `one_s[s == 0] = 0`;
  result `(L, one_s*R, one_s*G, one_s*B)`.
* `Prismatic_to_RGB`, per vector `(L, r, g, b)`:
  `m = max(r,g,b)`; `q = L/m` then `q[m == 0] = 0`; result `(q*r, q*g, q*b)`.

We model scalars as `ℚ`.  The zero-division hazard of IEEE floats is
modelled separately by `Option`-valued "checked" versions in which a raw
division by zero yields `none`; the code's mask (`one_s[s == 0] = 0`)
overwrites exactly those positions, which is what the safety theorems show.

Shape behaviour (the numpy functions act on the trailing axis of arrays)
is modelled by list-valued versions: `none` stands for a raised numpy
error (empty-axis reduction, or tuple unpacking of `tsplit`).
-/

namespace Prismatic

/-- `np.max` over a 3-component trailing axis. -/
def max3 (r g b : ℚ) : ℚ := max r (max g b)

/-- `RGB_to_Prismatic` on one RGB vector:
`L = max(R,G,B)`, `s = R+G+B`, `one_s = 1/s` masked to `0` where `s == 0`,
output `(L, one_s*R, one_s*G, one_s*B)`. -/
def RGB_to_Prismatic (r g b : ℚ) : ℚ × ℚ × ℚ × ℚ :=
  let L := max3 r g b
  let s := r + g + b
  let one_s := if s = 0 then 0 else 1 / s
  (L, one_s * r, one_s * g, one_s * b)

/-- `Prismatic_to_RGB` on one Prismatic vector `(L, r, g, b)`:
`m = max(r,g,b)`, `q = L/m` masked to `0` where `m == 0`,
output `(q*r, q*g, q*b)`. -/
def Prismatic_to_RGB (L r g b : ℚ) : ℚ × ℚ × ℚ :=
  let m := max3 r g b
  let q := if m = 0 then 0 else L / m
  (q * r, q * g, q * b)

/-- The `one_s = 1 / s; one_s[s == 0] = 0` sequence with the raw division
modelled as fallible: dividing by zero is `none` (a float `Inf`/`NaN`
hazard), and the mask then overwrites exactly the positions where
`s == 0` with `0`. -/
def one_sChecked (s : ℚ) : Option ℚ :=
  let raw : Option ℚ := if s = 0 then none else some (1 / s)
  if s = 0 then some 0 else raw

/-- `RGB_to_Prismatic` with the division-by-zero hazard made explicit:
`none` would mean a `NaN`/`Inf` escaping from the division step. -/
def RGB_to_PrismaticChecked (r g b : ℚ) : Option (ℚ × ℚ × ℚ × ℚ) :=
  let L := max3 r g b
  let s := r + g + b
  (one_sChecked s).map fun t => (L, t * r, t * g, t * b)

/-- The `RGB = L/m; RGB[m == 0] = 0` sequence of the inverse with the raw
division modelled as fallible, symmetric to `one_sChecked`. -/
def quotChecked (L m : ℚ) : Option ℚ :=
  let raw : Option ℚ := if m = 0 then none else some (L / m)
  if m = 0 then some 0 else raw

/-- `Prismatic_to_RGB` with the division-by-zero hazard made explicit. -/
def Prismatic_to_RGBChecked (L r g b : ℚ) : Option (ℚ × ℚ × ℚ) :=
  let m := max3 r g b
  (quotChecked L m).map fun q => (q * r, q * g, q * b)

/-- `np.max(v, axis=-1)` on one trailing-axis slice: numpy raises on an
empty axis (modelled `none`); otherwise the maximum of the entries. -/
def npMaxLast (v : List ℚ) : Option ℚ :=
  match v with
  | [] => none
  | x :: xs => some (xs.foldl max x)

/-- `RGB_to_Prismatic` on a raw trailing-axis slice of any length:
`L = np.max` (raises on length 0), `s = np.sum`, guarded reciprocal,
elementwise scaling, then `r, g, b = tsplit(one_s * RGB)` — the unpacking
into exactly three slices raises for any other trailing length (`none`) —
and `tstack((L, r, g, b))`. -/
def RGB_to_Prismatic_arr (v : List ℚ) : Option (List ℚ) :=
  (npMaxLast v).bind fun L =>
    let s := v.sum
    let one_s := if s = 0 then 0 else 1 / s
    let scaled := v.map fun x => one_s * x
    match scaled with
    | [r, g, b] => some [L, r, g, b]
    | _ => none

/-- `Prismatic_to_RGB` on a raw trailing-axis slice of any length:
`rgb = Lrgb[..., 1:]`, `m = np.max(rgb, axis=-1)` (raises on an empty
slice), guarded quotient `L/m`, output `q * rgb`.  The source has no
length check: any input of length `≥ 2` produces an output of length
`input length − 1`. -/
def Prismatic_to_RGB_arr (v : List ℚ) : Option (List ℚ) :=
  match v with
  | [] => none
  | L :: rgb =>
    (npMaxLast rgb).map fun m =>
      let q := if m = 0 then 0 else L / m
      rgb.map fun x => q * x

/-- `RGB_to_Prismatic` on a batch (leading axis) of well-shaped RGB
vectors, with each numpy step as a whole-batch operation: the trailing-axis
reductions `np.max`/`np.sum` are per-row maps, the guarded reciprocal is an
elementwise map, and the broadcast multiply and `tstack` are `zipWith`s
pairing each row with its own scalar. -/
def RGB_to_Prismatic_batch (batch : List (ℚ × ℚ × ℚ)) : List (ℚ × ℚ × ℚ × ℚ) :=
  let Ls := batch.map fun v => max3 v.1 v.2.1 v.2.2
  let ss := batch.map fun v => v.1 + v.2.1 + v.2.2
  let one_ss := ss.map fun s => if s = 0 then 0 else 1 / s
  let scaled := List.zipWith (fun t v => (t * v.1, t * v.2.1, t * v.2.2)) one_ss batch
  List.zipWith (fun L v => (L, v)) Ls scaled

/-- `Prismatic_to_RGB` on a batch of well-shaped Prismatic vectors, with
each numpy step as a whole-batch operation (slicing, per-row `np.max`,
guarded broadcast quotient, broadcast multiply). -/
def Prismatic_to_RGB_batch (batch : List (ℚ × ℚ × ℚ × ℚ)) : List (ℚ × ℚ × ℚ) :=
  let rgbs := batch.map fun v => v.2
  let ms := rgbs.map fun v => max3 v.1 v.2.1 v.2.2
  let qs := List.zipWith (fun (v : ℚ × ℚ × ℚ × ℚ) m => if m = 0 then 0 else v.1 / m) batch ms
  List.zipWith (fun q v => (q * v.1, q * v.2.1, q * v.2.2)) qs rgbs

end Prismatic

namespace Prismatic

/-- C7: on input `[0.25, 0.50, 0.75]` the forward transform returns
`[0.75, 1/6, 1/3, 0.5]`, whose middle components are within `10⁻⁷` of the
quoted decimals `0.16666667` and `0.33333333`; on input
`[0.75, 0.16666667, 0.33333333, 0.5]` the inverse transform returns a
vector within `10⁻⁷` of `[0.25, 0.5, 0.75]`. -/
theorem C7_concrete_example :
    RGB_to_Prismatic (1/4) (1/2) (3/4) = (3/4, 1/6, 1/3, 1/2) ∧
    |(1:ℚ)/6 - 16666667/100000000| < 1/10000000 ∧
    |(1:ℚ)/3 - 33333333/100000000| < 1/10000000 ∧
    |(Prismatic_to_RGB (3/4) (16666667/100000000) (33333333/100000000) (1/2)).1
        - 1/4| < 1/10000000 ∧
    |(Prismatic_to_RGB (3/4) (16666667/100000000) (33333333/100000000) (1/2)).2.1
        - 1/2| < 1/10000000 ∧
    (Prismatic_to_RGB (3/4) (16666667/100000000) (33333333/100000000) (1/2)).2.2
        = 3/4 := by
  refine ⟨by norm_num [RGB_to_Prismatic, max3, max_def],
    by rw [abs_sub_lt_iff]; norm_num, by rw [abs_sub_lt_iff]; norm_num, ?_, ?_,
    by norm_num [Prismatic_to_RGB, max3, max_def]⟩ <;>
  norm_num [Prismatic_to_RGB, max3, max_def, abs_lt]

/-- C8: rescaling each chromaticity component `c` of
`RGB_to_Prismatic [0.25, 0.50, 0.75]` to `1/3 + 0.5*(c - 1/3)` while
keeping `L`, then applying the inverse transform, yields exactly
`[0.45, 0.6, 0.75]` — the adjustment is plain arithmetic on the
components, using no dedicated saturation function. -/
theorem C8_saturation_example :
    (let Lrgb := RGB_to_Prismatic (1/4) (1/2) (3/4)
     let sat : ℚ → ℚ := fun c => 1/3 + (1/2) * (c - 1/3)
     Prismatic_to_RGB Lrgb.1 (sat Lrgb.2.1) (sat Lrgb.2.2.1) (sat Lrgb.2.2.2)) =
      (9/20, 3/5, 3/4) := by
  norm_num [RGB_to_Prismatic, Prismatic_to_RGB, max3, max_def]

/-- C4: for every `L` (rationals model the finite reals), the inverse
transform maps the degenerate Prismatic vector `[L, 0, 0, 0]` to exactly
`[0, 0, 0]`, and the checked version shows no division-by-zero hazard
escapes the `m == 0` mask. -/
theorem C4_degenerate_chromaticity (L : ℚ) :
    Prismatic_to_RGBChecked L 0 0 0 = some (0, 0, 0) ∧
    Prismatic_to_RGB L 0 0 0 = (0, 0, 0) := by
  constructor <;>
    simp [Prismatic_to_RGBChecked, Prismatic_to_RGB, quotChecked, max3]

/-- C3: for every non-negative input the checked forward transform (where
an unmasked division by zero would surface as `none`, i.e. a `NaN`/`Inf`)
agrees with the total one — the `s == 0` mask absorbs the only hazard —
and the all-zero vector maps exactly to `[0, 0, 0, 0]`. -/
theorem C3_zero_division_safety (r g b : ℚ)
    (hr : 0 ≤ r) (hg : 0 ≤ g) (hb : 0 ≤ b) :
    RGB_to_PrismaticChecked r g b = some (RGB_to_Prismatic r g b) ∧
    RGB_to_Prismatic 0 0 0 = (0, 0, 0, 0) := by
  refine ⟨?_, by norm_num [RGB_to_Prismatic, max3]⟩
  unfold RGB_to_PrismaticChecked RGB_to_Prismatic one_sChecked
  by_cases hs : r + g + b = 0 <;> simp [hs]

/-- Witness for C3 at the all-zero vector. -/
theorem C3_zero_division_safety_witness :
    RGB_to_PrismaticChecked 0 0 0 = some (RGB_to_Prismatic 0 0 0) ∧
    RGB_to_Prismatic 0 0 0 = (0, 0, 0, 0) :=
  C3_zero_division_safety 0 0 0 le_rfl le_rfl le_rfl

/-- C10: for every RGB vector whose components sum to zero — including
mixed-sign vectors — the forward transform returns
`(max(R,G,B), 0, 0, 0)`, with the checked version confirming no
`NaN`/`Inf` escapes: the guard triggers on the sum being zero, so the
luminance can be positive while the chromaticity is forced to `0`. -/
theorem C10_zero_sum_guard (r g b : ℚ) (h : r + g + b = 0) :
    RGB_to_Prismatic r g b = (max r (max g b), 0, 0, 0) ∧
    RGB_to_PrismaticChecked r g b = some (max r (max g b), 0, 0, 0) := by
  constructor <;>
    simp [RGB_to_Prismatic, RGB_to_PrismaticChecked, one_sChecked, max3, h]

/-- Witness for C10 at the mixed-sign vector `(1, 1, -2)`, whose
luminance component is the positive value `1`. -/
theorem C10_zero_sum_guard_witness :
    RGB_to_Prismatic 1 1 (-2) = (max 1 (max 1 (-2)), 0, 0, 0) ∧
    RGB_to_PrismaticChecked 1 1 (-2) = some (max 1 (max 1 (-2)), 0, 0, 0) :=
  C10_zero_sum_guard 1 1 (-2) (by norm_num)

/-- C2: for every RGB vector with `R+G+B > 0`, the three chromaticity
components of the forward transform sum to exactly `1`, and the first
output component is `max(R,G,B)`. -/
theorem C2_chromaticity_normalization (r g b : ℚ) (h : 0 < r + g + b) :
    (RGB_to_Prismatic r g b).2.1 + (RGB_to_Prismatic r g b).2.2.1 +
      (RGB_to_Prismatic r g b).2.2.2 = 1 ∧
    (RGB_to_Prismatic r g b).1 = max r (max g b) := by
  have hs : r + g + b ≠ 0 := ne_of_gt h
  constructor
  · simp only [RGB_to_Prismatic, if_neg hs]
    field_simp
  · rfl

/-- Witness for C2 at `(0.25, 0.5, 0.75)`. -/
theorem C2_chromaticity_normalization_witness :
    (RGB_to_Prismatic (1/4) (1/2) (3/4)).2.1 +
      (RGB_to_Prismatic (1/4) (1/2) (3/4)).2.2.1 +
      (RGB_to_Prismatic (1/4) (1/2) (3/4)).2.2.2 = 1 ∧
    (RGB_to_Prismatic (1/4) (1/2) (3/4)).1 = max (1/4) (max (1/2) (3/4)) :=
  C2_chromaticity_normalization (1/4) (1/2) (3/4) (by norm_num)

end Prismatic

namespace Prismatic

/-- C1: for every RGB vector with non-negative components, positive
maximum and positive sum, the inverse transform applied to the forward
transform's output recovers the input exactly (in exact arithmetic). -/
theorem C1_round_trip (r g b : ℚ) (hr : 0 ≤ r) (hg : 0 ≤ g) (hb : 0 ≤ b)
    (hmax : 0 < max r (max g b)) (hsum : 0 < r + g + b) :
    Prismatic_to_RGB (RGB_to_Prismatic r g b).1 (RGB_to_Prismatic r g b).2.1
      (RGB_to_Prismatic r g b).2.2.1 (RGB_to_Prismatic r g b).2.2.2 = (r, g, b) := by
  have hs : r + g + b ≠ 0 := ne_of_gt hsum
  have hinv : (0:ℚ) ≤ 1 / (r + g + b) := by positivity
  have hinvne : (1:ℚ) / (r + g + b) ≠ 0 := by positivity
  simp only [RGB_to_Prismatic, Prismatic_to_RGB, max3, if_neg hs]
  have hm : max (1 / (r + g + b) * r) (max (1 / (r + g + b) * g) (1 / (r + g + b) * b))
      = 1 / (r + g + b) * max r (max g b) := by
    rw [← mul_max_of_nonneg g b hinv, ← mul_max_of_nonneg r (max g b) hinv]
  rw [hm]
  have hL : max r (max g b) ≠ 0 := ne_of_gt hmax
  have hmne : 1 / (r + g + b) * max r (max g b) ≠ 0 := mul_ne_zero hinvne hL
  rw [if_neg hmne]
  have hq : max r (max g b) / (1 / (r + g + b) * max r (max g b)) = r + g + b := by
    field_simp
  rw [hq]
  simp only [Prod.mk.injEq]
  refine ⟨?_, ?_, ?_⟩ <;> field_simp

/-- Witness for C1 at `(0.25, 0.5, 0.75)`. -/
theorem C1_round_trip_witness :
    Prismatic_to_RGB (RGB_to_Prismatic (1/4) (1/2) (3/4)).1
      (RGB_to_Prismatic (1/4) (1/2) (3/4)).2.1
      (RGB_to_Prismatic (1/4) (1/2) (3/4)).2.2.1
      (RGB_to_Prismatic (1/4) (1/2) (3/4)).2.2.2 = (1/4, 1/2, 3/4) :=
  C1_round_trip (1/4) (1/2) (3/4) (by norm_num) (by norm_num) (by norm_num)
    (by norm_num [max_def]) (by norm_num)

/-- C5: for every Prismatic vector with `L ≥ 0` and a valid non-degenerate
chromaticity triple (non-negative components summing to 1, positive
maximum), the maximum of the three components returned by the inverse
transform equals `L` exactly. -/
theorem C5_luminance_preservation (L r g b : ℚ) (hL : 0 ≤ L)
    (hr : 0 ≤ r) (hg : 0 ≤ g) (hb : 0 ≤ b) (hsum : r + g + b = 1)
    (hm : 0 < max r (max g b)) :
    max (Prismatic_to_RGB L r g b).1
      (max (Prismatic_to_RGB L r g b).2.1 (Prismatic_to_RGB L r g b).2.2) = L := by
  have hm0 : max r (max g b) ≠ 0 := ne_of_gt hm
  simp only [Prismatic_to_RGB, max3, if_neg hm0]
  have hq : 0 ≤ L / max r (max g b) := div_nonneg hL (le_of_lt hm)
  rw [← mul_max_of_nonneg g b hq, ← mul_max_of_nonneg r (max g b) hq]
  field_simp

/-- Witness for C5 at `L = 2` with chromaticity `(1, 0, 0)`. -/
theorem C5_luminance_preservation_witness :
    max (Prismatic_to_RGB 2 1 0 0).1
      (max (Prismatic_to_RGB 2 1 0 0).2.1 (Prismatic_to_RGB 2 1 0 0).2.2) = 2 :=
  C5_luminance_preservation 2 1 0 0 (by norm_num) (by norm_num) (by norm_num)
    (by norm_num) (by norm_num) (by norm_num [max_def])

/-- Counterexample to C6: the inverse transform raises no shape error on
the 3-component input `[1, 0.5, 0.5]` (whose trailing length is not 4) —
it silently returns the 2-component output `[1, 1]`. -/
theorem C6_counterexample :
    ([(1:ℚ), 1/2, 1/2] : List ℚ).length ≠ 4 ∧
    Prismatic_to_RGB_arr [1, 1/2, 1/2] = some [1, 1] := by
  refine ⟨by simp, ?_⟩
  simp [Prismatic_to_RGB_arr, npMaxLast]

/-- C6 amended: the forward transform does fail for every input whose
trailing length is not 3 (via the three-way `tsplit` unpacking or the
empty-axis reduction, not a dedicated shape check), but the inverse has
no shape validation at all: it fails only for trailing length `< 2`, and
for every trailing length `≥ 2` — including every length other than 4 —
silently returns an output of length `input length − 1`. -/
theorem C6_shape_behaviour :
    (∀ v : List ℚ, (RGB_to_Prismatic_arr v).isSome ↔ v.length = 3) ∧
    (∀ v : List ℚ, (Prismatic_to_RGB_arr v).isSome ↔ 2 ≤ v.length) ∧
    (∀ v w : List ℚ, Prismatic_to_RGB_arr v = some w → w.length = v.length - 1) := by
  refine ⟨?_, ?_, ?_⟩
  · intro v
    rcases v with _ | ⟨a, _ | ⟨b, _ | ⟨c, _ | ⟨d, t⟩⟩⟩⟩ <;>
      simp [RGB_to_Prismatic_arr, npMaxLast]
  · intro v
    rcases v with _ | ⟨L, _ | ⟨x, t⟩⟩ <;>
      simp [Prismatic_to_RGB_arr, npMaxLast]
  · intro v w h
    rcases v with _ | ⟨L, _ | ⟨x, t⟩⟩ <;>
      simp [Prismatic_to_RGB_arr, npMaxLast] at h
    subst h
    simp

/-- Witness for C6 (amended) on the 3-component input `[1, 0.5, 0.5]`. -/
theorem C6_shape_behaviour_witness :
    ([(1:ℚ), 1] : List ℚ).length = ([(1:ℚ), 1/2, 1/2] : List ℚ).length - 1 :=
  C6_shape_behaviour.2.2 [1, 1/2, 1/2] [1, 1]
    (by simp [Prismatic_to_RGB_arr, npMaxLast])

/-- C9: applying the forward (resp. inverse) transform to a whole batch —
each numpy step acting on the full batch — produces at every position
exactly the result of applying the per-vector transform to that vector
alone: both batch transforms equal the elementwise map, with no
cross-vector interaction. -/
theorem C9_batch_invariance :
    (∀ batch : List (ℚ × ℚ × ℚ),
      RGB_to_Prismatic_batch batch
        = batch.map fun v => RGB_to_Prismatic v.1 v.2.1 v.2.2) ∧
    (∀ batch : List (ℚ × ℚ × ℚ × ℚ),
      Prismatic_to_RGB_batch batch
        = batch.map fun v => Prismatic_to_RGB v.1 v.2.1 v.2.2.1 v.2.2.2) := by
  constructor
  · intro batch
    induction batch with
    | nil => rfl
    | cons h t ih =>
      simp only [RGB_to_Prismatic_batch, RGB_to_Prismatic, max3, List.map_cons,
        List.zipWith_cons_cons] at ih ⊢
      exact congrArg _ ih
  · intro batch
    induction batch with
    | nil => rfl
    | cons h t ih =>
      simp only [Prismatic_to_RGB_batch, Prismatic_to_RGB, max3, List.map_cons,
        List.zipWith_cons_cons] at ih ⊢
      exact congrArg _ ih

end Prismatic
